import Mathlib

/-!
Shallow embedding of the transaction-building, canonical (RLP) encoding and
signing core of the flow-rust-sdk (`src/lib.rs`), together with theorems
settling the specification claims about it.

Conventions of the embedding:
* Rust `Vec<u8>` is modelled as `List Nat` (each entry < 256 in practice;
  no claim depends on the bound).
* Rust machine integers (`u32`, `u64`, `usize`) are modelled as `Nat`;
  the one place where overflow semantics matter (the checked subtraction
  inside `padding`) is modelled explicitly by a bounds test.
* A fallible Rust computation is modelled by `Outcome`: `ok` for a normal
  return, `err` for an `Err` value travelling through `Result`, and
  `panic` for a Rust panic (`unwrap`, `assert!`, arithmetic underflow in a
  debug build).
-/

namespace FlowSdk

/-- Error taxonomy named by the specification (section 7). The source code
itself has no error enum; `decodeError` stands for a `hex::FromHexError`
propagated through `Result`, `cryptoError` for an `elliptic_curve` error.
`invalidArgument` and `encodingOverflow` are named by the spec only and are
included so that claims mentioning them can be stated. -/
inductive FlowError where
  | decodeError
  | cryptoError
  | invalidArgument
  | encodingOverflow
deriving DecidableEq, Repr

/-- Result of running a piece of Rust code: a normal value, an `Err` carried
by `Result`, or a panic. -/
inductive Outcome (α : Type) where
  | ok : α → Outcome α
  | err : FlowError → Outcome α
  | panic : Outcome α
deriving DecidableEq, Repr

namespace Outcome

/-- Sequencing of fallible Rust computations: an `Err` or a panic aborts the
rest of the computation. -/
def bind {α β : Type} : Outcome α → (α → Outcome β) → Outcome β
  | ok a, f => f a
  | err e, _ => err e
  | panic, _ => panic

instance : Monad Outcome where
  pure := Outcome.ok
  bind := Outcome.bind

end Outcome

/-- Rust `Option::unwrap`: panics on `None`. -/
def unwrapO {α : Type} : Option α → Outcome α
  | some a => Outcome.ok a
  | none => Outcome.panic

/-- Rust `Result` propagation by `?`: a `None` (failure) of the underlying
operation becomes the error `e` travelling through `Result`. -/
def errO {α : Type} (e : FlowError) : Option α → Outcome α
  | some a => Outcome.ok a
  | none => Outcome.err e

/-- Loop body of `padding` in `src/lib.rs`: `while i > 0 { vec.push(0); i -= 1 }`.
Appends `i` zero bytes to `vec`. -/
def paddingLoop (vec : List Nat) : Nat → List Nat
  | 0 => vec
  | i + 1 => paddingLoop (vec ++ [0]) i

/-- The `padding` utility of `src/lib.rs` (lines 637-644):
`let mut i = count; i -= vec.len(); while i > 0 { vec.push(0); i -= 1 }`.
The subtraction `i -= vec.len()` is a checked `usize` subtraction and panics
when `count < vec.len()`; otherwise `count - vec.len()` zero bytes are pushed
onto the end of the vector. -/
def padding (vec : List Nat) (count : Nat) : Outcome (List Nat) :=
  if vec.length ≤ count then Outcome.ok (paddingLoop vec (count - vec.length))
  else Outcome.panic

/-- Minimal big-endian byte representation of a natural number, with explicit
fuel so that the definition is structural (the fuel `n` always suffices since
`n / 256 < n` for positive `n`). `beBytes 0 = []`, matching the `rlp` crate's
trimming of leading zero bytes from unsigned integers. -/
def beBytesAux : Nat → Nat → List Nat
  | 0, _ => []
  | _ + 1, 0 => []
  | fuel + 1, n + 1 => beBytesAux fuel ((n + 1) / 256) ++ [(n + 1) % 256]

/-- Minimal big-endian bytes of a natural number (empty for zero). -/
def beBytes (n : Nat) : List Nat := beBytesAux n n

/-- Big-endian value of a byte string (used to model the scalar range check of
`SecretKey::from_be_bytes`). -/
def beVal (bs : List Nat) : Nat := bs.foldl (fun acc b => acc * 256 + b) 0

/-- RLP encoding of a byte string, as produced by the `rlp` crate's
`encode_value`: a single byte below `0x80` stands for itself; a string of up
to 55 bytes is prefixed by `0x80 + length`; longer strings are prefixed by
`0xb7 +` the byte length of the length, followed by the big-endian length. -/
def rlpEncodeBytes (bs : List Nat) : List Nat :=
  if bs.length = 1 ∧ bs.headI < 128 then bs
  else if bs.length ≤ 55 then (128 + bs.length) :: bs
  else (183 + (beBytes bs.length).length) :: (beBytes bs.length ++ bs)

/-- RLP list header around an already-encoded concatenation of children, as
produced by closing an `RlpStream` list: payloads of up to 55 bytes get a
`0xc0 + length` prefix, longer ones `0xf7 +` the byte length of the length
followed by the big-endian length. -/
def rlpWrapList (payload : List Nat) : List Nat :=
  if payload.length ≤ 55 then (192 + payload.length) :: payload
  else (247 + (beBytes payload.length).length) :: (beBytes payload.length ++ payload)

/-- Concatenation of the RLP string encodings of a sequence of byte blobs:
the loop `for arg in arguments { stream.append(&arg) }` inside an open list. -/
def rlpConcatBytes : List (List Nat) → List Nat
  | [] => []
  | a :: rest => rlpEncodeBytes a ++ rlpConcatBytes rest

/-- Value of one hexadecimal digit character, `None` for any other character
(`hex::decode` accepts `0-9`, `a-f`, `A-F`). -/
def hexDigitVal (c : Char) : Option Nat :=
  if 48 ≤ c.toNat ∧ c.toNat ≤ 57 then some (c.toNat - 48)
  else if 97 ≤ c.toNat ∧ c.toNat ≤ 102 then some (c.toNat - 87)
  else if 65 ≤ c.toNat ∧ c.toNat ≤ 70 then some (c.toNat - 55)
  else none

/-- Hex decoding over the character list of a string: fails on odd length or
on any non-hex-digit character, mirroring `hex::decode`. -/
def hexDecodeChars : List Char → Option (List Nat)
  | [] => some []
  | [_] => none
  | c1 :: c2 :: rest =>
    match hexDigitVal c1, hexDigitVal c2, hexDecodeChars rest with
    | some h, some l, some r => some ((16 * h + l) :: r)
    | _, _, _ => none

/-- Rust `hex::decode` on a string, producing raw bytes or failing. -/
def hexDecode (s : String) : Option (List Nat) := hexDecodeChars s.data

/-- The `flow::TransactionProposalKey` protobuf message as used by the core:
an address, a key index (`u32`) and a sequence number (`u64`). -/
structure TransactionProposalKey where
  address : List Nat
  key_id : Nat
  sequence_number : Nat
deriving DecidableEq, Repr

/-- The `flow::TransactionSignature` protobuf message: an address, a key
index (`u32`) and raw signature bytes. -/
structure TransactionSignature where
  address : List Nat
  key_id : Nat
  signature : List Nat
deriving DecidableEq, Repr

/-- The `flow::Transaction` protobuf message, restricted to the fields the
core reads and writes. -/
structure Transaction where
  script : List Nat
  arguments : List (List Nat)
  reference_block_id : List Nat
  gas_limit : Nat
  proposal_key : Option TransactionProposalKey
  authorizers : List (List Nat)
  payload_signatures : List TransactionSignature
  envelope_signatures : List TransactionSignature
  payer : List Nat
deriving DecidableEq, Repr

/-- The `Sign` credential struct of `src/lib.rs`: a hex-encoded address, a
key index and a hex-encoded private key scalar. -/
structure Sign where
  address : String
  key_id : Nat
  private_key : String

/-- `payload_from_transaction` of `src/lib.rs` (lines 721-747): unwraps the
proposal key (panicking when absent), pads the proposal address to 8 and the
reference block id to 32 bytes, then RLP-encodes the ordered 9-element list
`[script, [arguments...], ref_block, gas_limit, proposal_address, key_id,
sequence_number, payer, [authorizers...]]`. The payer and authorizer byte
strings are appended exactly as stored, without padding. -/
def payload_from_transaction (tx : Transaction) : Outcome (List Nat) := do
  let proposal_key ← unwrapO tx.proposal_key
  let proposal_address ← padding proposal_key.address 8
  let ref_block ← padding tx.reference_block_id 32
  pure (rlpWrapList
    (rlpEncodeBytes tx.script ++
     rlpWrapList (rlpConcatBytes tx.arguments) ++
     rlpEncodeBytes ref_block ++
     rlpEncodeBytes (beBytes tx.gas_limit) ++
     rlpEncodeBytes proposal_address ++
     rlpEncodeBytes (beBytes proposal_key.key_id) ++
     rlpEncodeBytes (beBytes proposal_key.sequence_number) ++
     rlpEncodeBytes tx.payer ++
     rlpWrapList (rlpConcatBytes tx.authorizers)))

/-- Bytes of the signature-triple list built by the loop
`for (i, sig) in payload_signatures.iter().enumerate()` of
`envelope_from_transaction`: each triple is the 3-element RLP list
`[i, sig.key_id, sig.signature]`, with `i` the running positional index. -/
def sigTriplesBytes : List TransactionSignature → Nat → List Nat
  | [], _ => []
  | sig :: rest, i =>
    rlpWrapList
      (rlpEncodeBytes (beBytes i) ++
       rlpEncodeBytes (beBytes sig.key_id) ++
       rlpEncodeBytes sig.signature) ++
    sigTriplesBytes rest (i + 1)

/-- `envelope_from_transaction` of `src/lib.rs` (lines 679-719): a 2-element
outer RLP list whose first element repeats the 9-element payload list and
whose second element is the list of positional signature triples. -/
def envelope_from_transaction (tx : Transaction)
    (payload_signatures : List TransactionSignature) : Outcome (List Nat) := do
  let proposal_key ← unwrapO tx.proposal_key
  let proposal_address ← padding proposal_key.address 8
  let ref_block ← padding tx.reference_block_id 32
  pure (rlpWrapList
    (rlpWrapList
      (rlpEncodeBytes tx.script ++
       rlpWrapList (rlpConcatBytes tx.arguments) ++
       rlpEncodeBytes ref_block ++
       rlpEncodeBytes (beBytes tx.gas_limit) ++
       rlpEncodeBytes proposal_address ++
       rlpEncodeBytes (beBytes proposal_key.key_id) ++
       rlpEncodeBytes (beBytes proposal_key.sequence_number) ++
       rlpEncodeBytes tx.payer ++
       rlpWrapList (rlpConcatBytes tx.authorizers)) ++
     rlpWrapList (sigTriplesBytes payload_signatures 0)))

/-- The NIST P-256 group order, the upper bound of the scalar range accepted
by `SecretKey::from_be_bytes`. -/
def p256Order : Nat :=
  0xffffffff00000000ffffffffffffffffbce6faada7179e84f3b9cac2fc632551

/-- Modelled from the spec: the scalar validation of the external
`p256_flow::elliptic_curve_flow::SecretKey::from_be_bytes`, whose source is
outside this repository. A big-endian byte string is accepted exactly when it
is 32 bytes long and denotes a nonzero scalar below the group order. -/
def secretKeyFromBeBytes (bs : List Nat) : Option (List Nat) :=
  if bs.length = 32 ∧ 0 < beVal bs ∧ beVal bs < p256Order then some bs
  else none

/-- Type of the deterministic signature primitive: given the secret scalar
bytes and a message, produce the raw signature bytes. The ECDSA computation
itself lives in the external `p256_flow` crate and is outside this
repository; every theorem below is universally quantified over it. -/
abbrev SigPrim := List Nat → List Nat → List Nat

/-- The `sign` helper of `src/lib.rs` (lines 749-754): hex-decode the private
key (a failure propagates as an error through `Result` via the question-mark
operator), build the secret key (a failure propagates likewise), then sign the
message with the deterministic primitive. -/
def sign (sigPrim : SigPrim) (message : List Nat) (private_key : String) :
    Outcome (List Nat) := do
  let decoded ← errO FlowError.decodeError (hexDecode private_key)
  let secret_key ← errO FlowError.cryptoError (secretKeyFromBeBytes decoded)
  pure (sigPrim secret_key message)

/-- Byte representation of the domain separation tag constant
`b"FLOW-V0.0-transaction"` of `src/lib.rs`. -/
def domainTagBytes : List Nat := "FLOW-V0.0-transaction".data.map Char.toNat

/-- One signer loop of `sign_transaction` (both the payload and the envelope
loop have this shape): for each signer, force the canonical encoding `enc`
(which may panic), zero-pad the domain tag to 32 bytes, prepend it to the
encoding, hex-decode the signer address with `unwrap` (panicking on malformed
hex), pad the address to 8 bytes, sign, and push the resulting
`TransactionSignature`. An empty signer list never forces `enc`. -/
def signSigners (sigPrim : SigPrim) (enc : Outcome (List Nat)) :
    List Sign → Outcome (List TransactionSignature)
  | [] => Outcome.ok []
  | signer :: rest => do
    let encoded_payload ← enc
    let domain_tag ← padding domainTagBytes 32
    let fully_encoded := domain_tag ++ encoded_payload
    let decoded_addr ← unwrapO (hexDecode signer.address)
    let addr ← padding decoded_addr 8
    let signature ← sign sigPrim fully_encoded signer.private_key
    let sigs ← signSigners sigPrim enc rest
    pure ({ address := addr, key_id := signer.key_id, signature := signature }
            :: sigs)

/-- `sign_transaction` of `src/lib.rs` (lines 770-824): run the payload
signer loop against the payload encoding of the built transaction, then the
envelope signer loop against the envelope encoding over the freshly produced
payload signatures, and return the transaction with its two signature lists
replaced by the freshly produced ones (all other fields copied). -/
def sign_transaction (sigPrim : SigPrim) (built_transaction : Transaction)
    (payload_signatures : List Sign) (envelope_signatures : List Sign) :
    Outcome (Option Transaction) := do
  let payload ← signSigners sigPrim
    (payload_from_transaction built_transaction) payload_signatures
  let envelope ← signSigners sigPrim
    (envelope_from_transaction built_transaction payload) envelope_signatures
  pure (some
    { script := built_transaction.script
      arguments := built_transaction.arguments
      reference_block_id := built_transaction.reference_block_id
      gas_limit := built_transaction.gas_limit
      proposal_key := built_transaction.proposal_key
      authorizers := built_transaction.authorizers
      payload_signatures := payload
      envelope_signatures := envelope
      payer := built_transaction.payer })

/-- The loop `authorizers.iter().map(|x| hex::decode(x).unwrap()).collect()`
of `build_transaction`: hex-decode every authorizer, panicking on the first
malformed string. -/
def unwrapHexList : List String → Outcome (List (List Nat))
  | [] => Outcome.ok []
  | s :: rest => do
    let b ← unwrapO (hexDecode s)
    let bs ← unwrapHexList rest
    pure (b :: bs)

/-- `build_transaction` of `src/lib.rs` (lines 654-677): populate every field
of the transaction, wrap the proposer in `Some`, hex-decode the authorizers
and the payer with `unwrap` (panicking on malformed hex), and leave both
signature lists empty. -/
def build_transaction (script : List Nat) (arguments : List (List Nat))
    (reference_block_id : List Nat) (gas_limit : Nat)
    (proposer : TransactionProposalKey) (authorizers : List String)
    (payer : String) : Outcome Transaction := do
  let auths ← unwrapHexList authorizers
  let payerBytes ← unwrapO (hexDecode payer)
  pure
    { script := script
      arguments := arguments
      reference_block_id := reference_block_id
      gas_limit := gas_limit
      proposal_key := some proposer
      authorizers := auths
      payload_signatures := []
      envelope_signatures := []
      payer := payerBytes }

/-- The `Argument<String>` struct of `src/lib.rs`: a protocol type tag and a
string value. -/
structure Argument where
  type : String
  value : String
deriving DecidableEq, Repr

/-- Modelled from the spec: the `Display` rendering of a Rust `f64` (the
standard library's float formatting is outside this repository). `f64` values
are modelled as rationals; the rendering is exact on integral values
(`"0"`, `"1"`, `"-1"`, ...), which covers every value the claims evaluate;
non-integral values fall back to the rational rendering, on which no claim
depends. -/
def rustF64Display (q : Rat) : String :=
  if q.den = 1 then toString q.num else toString q

/-- `Argument::ufix64` of `src/lib.rs` (lines 596-602):
`assert!(value >= 0.0)` panics for negative input; otherwise the value is
rendered to a decimal string and tagged `"UFix64"`. -/
def ufix64 (value : Rat) : Outcome Argument :=
  if 0 ≤ value then Outcome.ok { type := "UFix64", value := rustF64Display value }
  else Outcome.panic

/-- Stated from the claim's words (for comparison with the source encoder):
the payload view with the payer address and every authorizer address
zero-padded to 8 bytes by big-endian zero-extension, as claim C2 describes
it. -/
def claimPayloadEncoding (tx : Transaction) : Outcome (List Nat) := do
  let proposal_key ← unwrapO tx.proposal_key
  let proposal_address ← padding proposal_key.address 8
  let ref_block ← padding tx.reference_block_id 32
  let payerPadded := List.replicate (8 - tx.payer.length) 0 ++ tx.payer
  pure (rlpWrapList
    (rlpEncodeBytes tx.script ++
     rlpWrapList (rlpConcatBytes tx.arguments) ++
     rlpEncodeBytes ref_block ++
     rlpEncodeBytes (beBytes tx.gas_limit) ++
     rlpEncodeBytes proposal_address ++
     rlpEncodeBytes (beBytes proposal_key.key_id) ++
     rlpEncodeBytes (beBytes proposal_key.sequence_number) ++
     rlpEncodeBytes payerPadded ++
     rlpWrapList (rlpConcatBytes
       (tx.authorizers.map (fun a => List.replicate (8 - a.length) 0 ++ a)))))

/-! Helper lemmas shared by the claim theorems. -/

@[simp] theorem outcome_bind_def {α β : Type} (x : Outcome α) (f : α → Outcome β) :
    x >>= f = Outcome.bind x f := rfl

@[simp] theorem outcome_pure_def {α : Type} (a : α) :
    (pure a : Outcome α) = Outcome.ok a := rfl

@[simp] theorem outcome_bind_ok {α β : Type} (a : α) (f : α → Outcome β) :
    Outcome.bind (Outcome.ok a) f = f a := rfl

@[simp] theorem outcome_bind_err {α β : Type} (e : FlowError) (f : α → Outcome β) :
    Outcome.bind (Outcome.err e) f = Outcome.err e := rfl

@[simp] theorem outcome_bind_panic {α β : Type} (f : α → Outcome β) :
    Outcome.bind Outcome.panic f = Outcome.panic := rfl

theorem paddingLoop_eq (i : Nat) : ∀ vec : List Nat,
    paddingLoop vec i = vec ++ List.replicate i 0 := by
  induction i with
  | zero => intro vec; simp [paddingLoop]
  | succ n ih =>
    intro vec
    rw [paddingLoop, ih]
    simp [List.replicate_succ]

theorem padding_eq_append (b : List Nat) (w : Nat) (h : b.length ≤ w) :
    padding b w = Outcome.ok (b ++ List.replicate (w - b.length) 0) := by
  rw [padding, if_pos h, paddingLoop_eq]

theorem padding_gt (b : List Nat) (w : Nat) (h : w < b.length) :
    padding b w = Outcome.panic := by
  rw [padding, if_neg (by omega)]

theorem domainTag_pad :
    padding domainTagBytes 32 = Outcome.ok (domainTagBytes ++ List.replicate 11 0) := by
  decide

theorem domainTag_full_length :
    (domainTagBytes ++ List.replicate 11 0).length = 32 := by decide

/-! Claim C1. -/

/-- C1 (amended): for every byte vector `b` and width `w` with
`b.length ≤ w`, `padding b w` returns a vector of length exactly `w` that
BEGINS with the original bytes `b` unchanged, the suffix being all zero
bytes — zeros are appended, never prepended, and the input is never
truncated. (The claim as frozen says zeros are prepended; the code pushes
them onto the end.) -/
theorem padding_appends_zeros (b : List Nat) (w : Nat) (h : b.length ≤ w) :
    padding b w = Outcome.ok (b ++ List.replicate (w - b.length) 0) ∧
    (b ++ List.replicate (w - b.length) 0).length = w := by
  refine ⟨padding_eq_append b w h, ?_⟩
  simp
  omega

/-- Witness for C1's amended theorem at `b = [1, 2]`, `w = 4`. -/
theorem padding_appends_zeros_witness :
    ([1, 2] : List Nat).length ≤ 4 ∧
    (padding [1, 2] 4 = Outcome.ok ([1, 2] ++ List.replicate 2 0) ∧
     (([1, 2] : List Nat) ++ List.replicate 2 0).length = 4) :=
  ⟨by decide, padding_appends_zeros [1, 2] 4 (by decide)⟩

/-- Counterexample to C1 as frozen: at `b = [1]`, `w = 2` the output is
`[1, 0]` (zeros appended), not the zero-prefixed `[0, 1]` the claim
requires. -/
theorem padding_prepend_counterexample :
    padding [1] 2 = Outcome.ok [1, 0] ∧
    padding [1] 2 ≠ Outcome.ok (List.replicate 1 0 ++ [1]) := by decide

/-! Claim C6. -/

/-- C6 (amended): for every input byte vector longer than the requested
width, `padding` fails loudly by panicking (the checked `usize` subtraction
underflows; there is no `EncodingOverflow` error value in the code), and it
never silently truncates the input or produces an output of the wrong
length: every normal return has length exactly `w` and starts with the
input unchanged. -/
theorem padding_overflow_behavior (b : List Nat) (w : Nat) :
    (w < b.length → padding b w = Outcome.panic) ∧
    (∀ out, padding b w = Outcome.ok out →
       out.length = w ∧ List.take b.length out = b) := by
  constructor
  · exact padding_gt b w
  · intro out hout
    rw [padding] at hout
    by_cases h : b.length ≤ w
    · rw [if_pos h, paddingLoop_eq] at hout
      cases hout
      constructor
      · simp; omega
      · simp
    · rw [if_neg h] at hout
      cases hout

/-- Witness for C6's amended theorem: overflow at `b = [3, 4, 5]`, `w = 2`
panics; the normal return at `b = [9]`, `w = 5` is well-sized and keeps the
input. -/
theorem padding_overflow_behavior_witness :
    (2 < ([3, 4, 5] : List Nat).length ∧ padding [3, 4, 5] 2 = Outcome.panic) ∧
    (padding [9] 5 = Outcome.ok [9, 0, 0, 0, 0] ∧
     (([9, 0, 0, 0, 0] : List Nat).length = 5 ∧
      List.take ([9] : List Nat).length [9, 0, 0, 0, 0] = [9])) :=
  ⟨⟨by decide, (padding_overflow_behavior [3, 4, 5] 2).1 (by decide)⟩,
   ⟨by decide, (padding_overflow_behavior [9] 5).2 [9, 0, 0, 0, 0] (by decide)⟩⟩

/-- Counterexample to C6 as frozen: on overflow (`b = [0, 0]`, `w = 1`) the
code panics instead of returning an explicit `EncodingOverflow` error. -/
theorem padding_overflow_counterexample :
    padding [0, 0] 1 = Outcome.panic ∧
    padding [0, 0] 1 ≠ Outcome.err FlowError.encodingOverflow := by decide

/-! Claim C5. -/

/-- C5 (amended): `ufix64` rejects every negative input by panicking (the
`assert!` macro aborts; no `InvalidArgument` error value is returned), and
for input `0.0` it succeeds, producing an argument tagged `"UFix64"` whose
value is the decimal string `"0"`. -/
theorem ufix64_behavior (q : Rat) :
    (q < 0 → ufix64 q = Outcome.panic) ∧
    ufix64 0 = Outcome.ok { type := "UFix64", value := "0" } := by
  constructor
  · intro h
    rw [ufix64, if_neg (not_le.mpr h)]
  · decide

/-- Witness for C5's amended theorem at inputs `-1` and `0`. -/
theorem ufix64_behavior_witness :
    ((-1 : Rat) < 0 ∧ ufix64 (-1) = Outcome.panic) ∧
    ufix64 0 = Outcome.ok { type := "UFix64", value := "0" } :=
  ⟨⟨by decide, (ufix64_behavior (-1)).1 (by decide)⟩, (ufix64_behavior 0).2⟩

/-- Counterexample to C5 as frozen: `ufix64 (-1)` panics via the assertion;
it does not fail with an `InvalidArgument` error result. -/
theorem ufix64_negative_counterexample :
    ufix64 (-1) = Outcome.panic ∧
    ufix64 (-1) ≠ Outcome.err FlowError.invalidArgument := by decide

/-! Claim C4. -/

/-- C4 (amended): `build_transaction` populates all transaction fields,
leaves both signature lists empty, and hex-decodes the authorizer and payer
strings at build time; for any input in which the payer or an authorizer is
a malformed hex string, the call panics (the decode result is unwrapped)
rather than returning a `DecodeError` result. -/
theorem build_transaction_behavior (script : List Nat)
    (args : List (List Nat)) (ref : List Nat) (gas : Nat)
    (proposer : TransactionProposalKey) (auths : List String)
    (payer : String) :
    (∀ authsB payerB, unwrapHexList auths = Outcome.ok authsB →
       hexDecode payer = some payerB →
       build_transaction script args ref gas proposer auths payer =
         Outcome.ok
           { script := script, arguments := args,
             reference_block_id := ref, gas_limit := gas,
             proposal_key := some proposer, authorizers := authsB,
             payload_signatures := [], envelope_signatures := [],
             payer := payerB }) ∧
    (unwrapHexList auths = Outcome.panic →
       build_transaction script args ref gas proposer auths payer =
         Outcome.panic) ∧
    (∀ authsB, unwrapHexList auths = Outcome.ok authsB →
       hexDecode payer = none →
       build_transaction script args ref gas proposer auths payer =
         Outcome.panic) := by
  refine ⟨?_, ?_, ?_⟩
  · intro authsB payerB h1 h2
    rw [build_transaction]
    simp [h1, h2, unwrapO]
  · intro h1
    rw [build_transaction]
    simp [h1]
  · intro authsB h1 h2
    rw [build_transaction]
    simp [h1, h2, unwrapO]

/-- Witness for C4's amended theorem: a well-formed build populating all
fields, and a malformed payer string making the call panic. -/
theorem build_transaction_behavior_witness :
    (unwrapHexList ["02"] = Outcome.ok [[2]] ∧ hexDecode "ff" = some [255] ∧
     build_transaction [7] [[1]] [9] 10 ⟨[1], 0, 0⟩ ["02"] "ff" =
       Outcome.ok
         { script := [7], arguments := [[1]], reference_block_id := [9],
           gas_limit := 10, proposal_key := some ⟨[1], 0, 0⟩,
           authorizers := [[2]], payload_signatures := [],
           envelope_signatures := [], payer := [255] }) ∧
    (hexDecode "zz" = none ∧
     build_transaction [7] [[1]] [9] 10 ⟨[1], 0, 0⟩ ["02"] "zz" =
       Outcome.panic) :=
  ⟨⟨by decide, by decide,
    (build_transaction_behavior [7] [[1]] [9] 10 ⟨[1], 0, 0⟩ ["02"] "ff").1
      [[2]] [255] (by decide) (by decide)⟩,
   ⟨by decide,
    (build_transaction_behavior [7] [[1]] [9] 10 ⟨[1], 0, 0⟩ ["02"] "zz").2.2
      [[2]] (by decide) (by decide)⟩⟩

/-- Counterexample to C4 as frozen: with the malformed payer hex string
`"zz"` the build call panics; it does not fail with a `DecodeError` result. -/
theorem build_transaction_panic_counterexample :
    build_transaction [] [] [] 0 ⟨[1], 0, 0⟩ [] "zz" = Outcome.panic ∧
    build_transaction [] [] [] 0 ⟨[1], 0, 0⟩ [] "zz" ≠
      Outcome.err FlowError.decodeError := by decide

/-! Concrete fixtures used by witnesses and counterexamples. -/

/-- Proposal key fixture with a full-width 8-byte address. -/
def pkEnv : TransactionProposalKey :=
  { address := List.replicate 8 7, key_id := 1, sequence_number := 2 }

/-- Transaction fixture with every fixed-width field at full width. -/
def txEnv : Transaction :=
  { script := [1], arguments := [[2]],
    reference_block_id := List.replicate 32 5, gas_limit := 42,
    proposal_key := some pkEnv, authorizers := [List.replicate 8 3],
    payload_signatures := [], envelope_signatures := [],
    payer := List.replicate 8 9 }

/-- Transaction fixture whose payer is shorter than the 8-byte width
(1 byte) while every other fixed-width field is at full width. -/
def txPayerShort : Transaction :=
  { script := [1], arguments := [],
    reference_block_id := List.replicate 32 5, gas_limit := 0,
    proposal_key := some { address := List.replicate 8 7, key_id := 0,
                           sequence_number := 0 },
    authorizers := [], payload_signatures := [], envelope_signatures := [],
    payer := [1] }

/-- Transaction fixture with no proposal key. -/
def txNoKey : Transaction := { txEnv with proposal_key := none }

/-- Shared characterization of the payload encoder: with the proposal key
present and both padded fields within their widths, `payload_from_transaction`
returns the RLP list of the 9 elements, the payer and authorizers unpadded. -/
theorem payload_from_transaction_eq (tx : Transaction)
    (pk : TransactionProposalKey) (hpk : tx.proposal_key = some pk)
    (h8 : pk.address.length ≤ 8) (h32 : tx.reference_block_id.length ≤ 32) :
    payload_from_transaction tx =
      Outcome.ok (rlpWrapList
        (rlpEncodeBytes tx.script ++
         rlpWrapList (rlpConcatBytes tx.arguments) ++
         rlpEncodeBytes (tx.reference_block_id ++
           List.replicate (32 - tx.reference_block_id.length) 0) ++
         rlpEncodeBytes (beBytes tx.gas_limit) ++
         rlpEncodeBytes (pk.address ++
           List.replicate (8 - pk.address.length) 0) ++
         rlpEncodeBytes (beBytes pk.key_id) ++
         rlpEncodeBytes (beBytes pk.sequence_number) ++
         rlpEncodeBytes tx.payer ++
         rlpWrapList (rlpConcatBytes tx.authorizers))) := by
  rw [payload_from_transaction]
  simp [hpk, unwrapO, padding_eq_append pk.address 8 h8,
        padding_eq_append tx.reference_block_id 32 h32]

/-- Shared characterization of the envelope encoder: with the proposal key
present and both padded fields within their widths,
`envelope_from_transaction` returns the RLP 2-element list of the repeated
9-element payload list and the positional signature-triple list. -/
theorem envelope_from_transaction_eq (tx : Transaction)
    (pk : TransactionProposalKey) (ps : List TransactionSignature)
    (hpk : tx.proposal_key = some pk)
    (h8 : pk.address.length ≤ 8) (h32 : tx.reference_block_id.length ≤ 32) :
    envelope_from_transaction tx ps =
      Outcome.ok (rlpWrapList
        (rlpWrapList
          (rlpEncodeBytes tx.script ++
           rlpWrapList (rlpConcatBytes tx.arguments) ++
           rlpEncodeBytes (tx.reference_block_id ++
             List.replicate (32 - tx.reference_block_id.length) 0) ++
           rlpEncodeBytes (beBytes tx.gas_limit) ++
           rlpEncodeBytes (pk.address ++
             List.replicate (8 - pk.address.length) 0) ++
           rlpEncodeBytes (beBytes pk.key_id) ++
           rlpEncodeBytes (beBytes pk.sequence_number) ++
           rlpEncodeBytes tx.payer ++
           rlpWrapList (rlpConcatBytes tx.authorizers)) ++
         rlpWrapList (sigTriplesBytes ps 0))) := by
  rw [envelope_from_transaction]
  simp [hpk, unwrapO, padding_eq_append pk.address 8 h8,
        padding_eq_append tx.reference_block_id 32 h32]

/-! Claim C2. -/

/-- C2 (amended): for every transaction with proposal key present, proposer
address at most 8 bytes and reference block id at most 32 bytes, the
canonical payload encoding is the RLP encoding of an ordered top-level list
of exactly 9 elements in this order: script bytes, list of argument blobs,
the reference block id padded to 32 bytes (zeros appended), gas limit as
integer, the proposer address padded to 8 bytes (zeros appended), proposer
key index, proposer sequence number, the payer address exactly as stored
(NOT padded), and the list of authorizer addresses each exactly as stored
(NOT padded). -/
theorem payload_encoding_nine_elements (tx : Transaction)
    (pk : TransactionProposalKey) (hpk : tx.proposal_key = some pk)
    (h8 : pk.address.length ≤ 8) (h32 : tx.reference_block_id.length ≤ 32) :
    payload_from_transaction tx =
      Outcome.ok (rlpWrapList
        (rlpEncodeBytes tx.script ++
         rlpWrapList (rlpConcatBytes tx.arguments) ++
         rlpEncodeBytes (tx.reference_block_id ++
           List.replicate (32 - tx.reference_block_id.length) 0) ++
         rlpEncodeBytes (beBytes tx.gas_limit) ++
         rlpEncodeBytes (pk.address ++
           List.replicate (8 - pk.address.length) 0) ++
         rlpEncodeBytes (beBytes pk.key_id) ++
         rlpEncodeBytes (beBytes pk.sequence_number) ++
         rlpEncodeBytes tx.payer ++
         rlpWrapList (rlpConcatBytes tx.authorizers))) :=
  payload_from_transaction_eq tx pk hpk h8 h32

/-- Witness for C2's amended theorem at the fixture transaction. -/
theorem payload_encoding_nine_elements_witness :
    txEnv.proposal_key = some pkEnv ∧ pkEnv.address.length ≤ 8 ∧
    txEnv.reference_block_id.length ≤ 32 ∧
    payload_from_transaction txEnv =
      Outcome.ok (rlpWrapList
        (rlpEncodeBytes txEnv.script ++
         rlpWrapList (rlpConcatBytes txEnv.arguments) ++
         rlpEncodeBytes (txEnv.reference_block_id ++
           List.replicate (32 - txEnv.reference_block_id.length) 0) ++
         rlpEncodeBytes (beBytes txEnv.gas_limit) ++
         rlpEncodeBytes (pkEnv.address ++
           List.replicate (8 - pkEnv.address.length) 0) ++
         rlpEncodeBytes (beBytes pkEnv.key_id) ++
         rlpEncodeBytes (beBytes pkEnv.sequence_number) ++
         rlpEncodeBytes txEnv.payer ++
         rlpWrapList (rlpConcatBytes txEnv.authorizers))) :=
  ⟨rfl, by decide, by decide,
   payload_encoding_nine_elements txEnv pkEnv rfl (by decide) (by decide)⟩

/-- Counterexample to C2 as frozen: on a transaction whose decoded payer is
the single byte `[1]` (within the 8-byte width), the payload encoding the
code produces differs from the claim's encoding, in which the payer and
authorizers are zero-padded to 8 bytes: the code appends the payer bytes
unpadded. -/
theorem payload_payer_unpadded_counterexample :
    txPayerShort.payer.length ≤ 8 ∧
    payload_from_transaction txPayerShort ≠
      claimPayloadEncoding txPayerShort := by decide

/-! Claim C3. -/

/-- Bytes of one positional signature triple `[i, key_id, signature]`. -/
def tripleBytes (i : Nat) (sig : TransactionSignature) : List Nat :=
  rlpWrapList
    (rlpEncodeBytes (beBytes i) ++
     rlpEncodeBytes (beBytes sig.key_id) ++
     rlpEncodeBytes sig.signature)

theorem sigTriplesBytes_enumFrom (sigs : List TransactionSignature) :
    ∀ j, sigTriplesBytes sigs j =
      ((List.enumFrom j sigs).map (fun pr => tripleBytes pr.1 pr.2)).flatten := by
  induction sigs with
  | nil => intro j; simp [sigTriplesBytes]
  | cons s rest ih =>
    intro j
    rw [sigTriplesBytes, List.enumFrom_cons, List.map_cons, List.flatten_cons, ih]
    rfl

/-- C3 (confirmed): for every transaction whose payload encoding is defined
and every sequence of payload signature records, the canonical envelope
encoding is a 2-element outer RLP list whose first element is the 9-element
payload view (byte-identical to the payload encoding) and whose second
element is the list of signature triples, where the i-th triple is
`[i, key index of the i-th record, signature bytes of the i-th record]` —
the positional indices enumerate the records in exactly the order supplied,
regardless of their key indices. -/
theorem envelope_structure_positional (tx : Transaction)
    (ps : List TransactionSignature) (p : List Nat)
    (h : payload_from_transaction tx = Outcome.ok p) :
    envelope_from_transaction tx ps =
      Outcome.ok (rlpWrapList (p ++ rlpWrapList (sigTriplesBytes ps 0))) ∧
    sigTriplesBytes ps 0 =
      (ps.enum.map (fun pr => tripleBytes pr.1 pr.2)).flatten := by
  constructor
  · rw [payload_from_transaction] at h
    rw [envelope_from_transaction]
    cases hpk : tx.proposal_key with
    | none => rw [hpk] at h; simp [unwrapO] at h
    | some pk =>
      rw [hpk] at h
      simp only [outcome_bind_def, unwrapO, outcome_bind_ok] at h ⊢
      cases hpa : padding pk.address 8 with
      | ok pa =>
        rw [hpa] at h
        simp only [outcome_bind_ok] at h ⊢
        cases hrb : padding tx.reference_block_id 32 with
        | ok rb =>
          rw [hrb] at h
          simp only [outcome_bind_ok, outcome_pure_def, Outcome.ok.injEq] at h ⊢
          rw [h]
        | err e => rw [hrb] at h; simp at h
        | panic => rw [hrb] at h; simp at h
      | err e => rw [hpa] at h; simp at h
      | panic => rw [hpa] at h; simp at h
  · rw [sigTriplesBytes_enumFrom, List.enum_eq_enumFrom]

/-- Payload signature records fixture: two records whose key indices (5 and
3) differ from their positions (0 and 1). -/
def psEnv : List TransactionSignature :=
  [{ address := [1], key_id := 5, signature := [9] },
   { address := [2], key_id := 3, signature := [8, 8] }]

/-- Payload encoding bytes of the fixture transaction. -/
def pEnv : List Nat :=
  match payload_from_transaction txEnv with
  | Outcome.ok v => v
  | _ => []

/-- Witness for C3's theorem at the fixture transaction and the two fixture
signature records. -/
theorem envelope_structure_positional_witness :
    payload_from_transaction txEnv = Outcome.ok pEnv ∧
    (envelope_from_transaction txEnv psEnv =
       Outcome.ok (rlpWrapList (pEnv ++ rlpWrapList (sigTriplesBytes psEnv 0))) ∧
     sigTriplesBytes psEnv 0 =
       (psEnv.enum.map (fun pr => tripleBytes pr.1 pr.2)).flatten) :=
  ⟨rfl, envelope_structure_positional txEnv psEnv pEnv rfl⟩

/-! Claim C9. -/

/-- C9 (confirmed): for every transaction whose `proposal_key` field is
`None`, the canonical payload and envelope encodings panic (the field is
unwrapped) rather than returning an error, and `sign_transaction` invoked
with at least one signer (payload or envelope) panics as well; with the
proposal key present (and the fixed-width fields within bounds) both
encoders return normally. -/
theorem proposal_key_unwrap_panics (tx : Transaction) :
    (tx.proposal_key = none →
       payload_from_transaction tx = Outcome.panic ∧
       (∀ ps, envelope_from_transaction tx ps = Outcome.panic) ∧
       (∀ sigPrim s ps es,
          sign_transaction sigPrim tx (s :: ps) es = Outcome.panic) ∧
       (∀ sigPrim s es,
          sign_transaction sigPrim tx [] (s :: es) = Outcome.panic)) ∧
    (∀ pk, tx.proposal_key = some pk → pk.address.length ≤ 8 →
       tx.reference_block_id.length ≤ 32 →
       (∃ bs, payload_from_transaction tx = Outcome.ok bs) ∧
       (∀ ps, ∃ bs, envelope_from_transaction tx ps = Outcome.ok bs)) := by
  constructor
  · intro hnone
    have hpay : payload_from_transaction tx = Outcome.panic := by
      rw [payload_from_transaction]; simp [hnone, unwrapO]
    have henv : ∀ ps, envelope_from_transaction tx ps = Outcome.panic := by
      intro ps
      rw [envelope_from_transaction]; simp [hnone, unwrapO]
    refine ⟨hpay, henv, ?_, ?_⟩
    · intro sigPrim s ps es
      rw [sign_transaction, signSigners]
      simp [hpay]
    · intro sigPrim s es
      rw [sign_transaction, signSigners]
      simp [signSigners, henv]
  · intro pk hpk h8 h32
    constructor
    · exact ⟨_, payload_from_transaction_eq tx pk hpk h8 h32⟩
    · intro ps
      exact ⟨_, envelope_from_transaction_eq tx pk ps hpk h8 h32⟩

/-- Witness for C9's theorem: the keyless fixture transaction panics in both
encoders and in a one-signer signing call; the keyed fixture encodes
normally. -/
theorem proposal_key_unwrap_panics_witness :
    (txNoKey.proposal_key = none ∧
     payload_from_transaction txNoKey = Outcome.panic ∧
     sign_transaction (fun _ _ => [1]) txNoKey
       [{ address := "01", key_id := 0, private_key := "01" }] [] =
       Outcome.panic) ∧
    (txEnv.proposal_key = some pkEnv ∧ pkEnv.address.length ≤ 8 ∧
     txEnv.reference_block_id.length ≤ 32 ∧
     ∃ bs, payload_from_transaction txEnv = Outcome.ok bs) :=
  ⟨⟨rfl, ((proposal_key_unwrap_panics txNoKey).1 rfl).1,
    ((proposal_key_unwrap_panics txNoKey).1 rfl).2.2.1 (fun _ _ => [1])
      { address := "01", key_id := 0, private_key := "01" } [] []⟩,
   ⟨rfl, by decide, by decide,
    ((proposal_key_unwrap_panics txEnv).2 pkEnv rfl (by decide) (by decide)).1⟩⟩

/-! Characterization of the signer loop, shared by the signing claims. -/

theorem secretKeyFromBeBytes_eq {bs sk : List Nat}
    (h : secretKeyFromBeBytes bs = some sk) : sk = bs := by
  rw [secretKeyFromBeBytes] at h
  split at h
  · cases h; rfl
  · cases h

theorem sign_err_decode (sigPrim : SigPrim) (msg : List Nat) (key : String)
    (h : hexDecode key = none) :
    sign sigPrim msg key = Outcome.err FlowError.decodeError := by
  rw [sign]; simp [h, errO]

theorem sign_err_crypto (sigPrim : SigPrim) (msg : List Nat) (key : String)
    (kb : List Nat) (hk : hexDecode key = some kb)
    (hv : secretKeyFromBeBytes kb = none) :
    sign sigPrim msg key = Outcome.err FlowError.cryptoError := by
  rw [sign]; simp [hk, hv, errO]

theorem sign_ok (sigPrim : SigPrim) (msg : List Nat) (key : String)
    (kb sk : List Nat) (hk : hexDecode key = some kb)
    (hv : secretKeyFromBeBytes kb = some sk) :
    sign sigPrim msg key = Outcome.ok (sigPrim sk msg) := by
  rw [sign]; simp [hk, hv, errO]

/-- Full characterization of a successful signer loop: the output list has
one record per signer in input order; every record's address is the signer's
hex-decoded address padded (zeros appended) to 8 bytes, its key index is
the signer's, and its signature is the deterministic primitive applied to
the signer's decoded key scalar and to the 32-byte zero-padded domain tag
followed by the forced encoding. -/
theorem signSigners_ok_spec (sigPrim : SigPrim) (enc : Outcome (List Nat)) :
    ∀ (signers : List Sign) (sigs : List TransactionSignature),
      signSigners sigPrim enc signers = Outcome.ok sigs →
      sigs.length = signers.length ∧
      ∀ i (hi : i < signers.length) (hi2 : i < sigs.length),
        ∃ encB decodedAddr kb,
          enc = Outcome.ok encB ∧
          hexDecode (signers.get ⟨i, hi⟩).address = some decodedAddr ∧
          decodedAddr.length ≤ 8 ∧
          hexDecode (signers.get ⟨i, hi⟩).private_key = some kb ∧
          secretKeyFromBeBytes kb = some kb ∧
          (sigs.get ⟨i, hi2⟩).address =
            decodedAddr ++ List.replicate (8 - decodedAddr.length) 0 ∧
          (sigs.get ⟨i, hi2⟩).key_id = (signers.get ⟨i, hi⟩).key_id ∧
          (sigs.get ⟨i, hi2⟩).signature =
            sigPrim kb ((domainTagBytes ++ List.replicate 11 0) ++ encB) := by
  intro signers
  induction signers with
  | nil =>
    intro sigs h
    rw [signSigners] at h
    cases h
    exact ⟨rfl, fun i hi => absurd hi (by simp)⟩
  | cons a rest ih =>
    intro sigs h
    rw [signSigners] at h
    simp only [outcome_bind_def] at h
    cases henc : enc with
    | err e => rw [henc] at h; simp at h
    | panic => rw [henc] at h; simp at h
    | ok encB =>
      rw [henc] at ih
      rw [henc, outcome_bind_ok, domainTag_pad, outcome_bind_ok] at h
      cases haddr : hexDecode a.address with
      | none => rw [haddr] at h; simp [unwrapO] at h
      | some d =>
        rw [haddr] at h
        simp only [unwrapO, outcome_bind_ok] at h
        by_cases hd8 : d.length ≤ 8
        · rw [padding_eq_append d 8 hd8, outcome_bind_ok] at h
          cases hk : hexDecode a.private_key with
          | none =>
            rw [sign_err_decode sigPrim _ _ hk] at h
            simp at h
          | some kb =>
            cases hv : secretKeyFromBeBytes kb with
            | none =>
              rw [sign_err_crypto sigPrim _ _ kb hk hv] at h
              simp at h
            | some sk =>
              rw [sign_ok sigPrim _ _ kb sk hk hv] at h
              simp only [outcome_bind_ok] at h
              cases hrec : signSigners sigPrim (Outcome.ok encB) rest with
              | err e => rw [hrec] at h; simp at h
              | panic => rw [hrec] at h; simp at h
              | ok sigs2 =>
                rw [hrec] at h
                simp only [outcome_bind_ok, outcome_pure_def,
                  Outcome.ok.injEq] at h
                obtain ⟨hlen, hspec⟩ := ih sigs2 hrec
                subst h
                have hsk : sk = kb := secretKeyFromBeBytes_eq hv
                subst hsk
                refine ⟨by simp [hlen], ?_⟩
                intro i hi hi2
                match i with
                | 0 =>
                  exact ⟨encB, d, sk, rfl, haddr, hd8, hk, hv, rfl, rfl, rfl⟩
                | j + 1 =>
                  have hj : j < rest.length := by
                    simpa using hi
                  have hj2 : j < sigs2.length := by
                    simpa using hi2
                  simpa using hspec j hj hj2
        · rw [padding_gt d 8 (by omega)] at h
          simp at h

/-- A successful `sign_transaction` call decomposes into a successful
payload loop and a successful envelope loop, the output transaction copying
every non-signature field and carrying exactly the two fresh signature
lists. -/
theorem sign_transaction_ok_destruct (sigPrim : SigPrim) (tx : Transaction)
    (ps es : List Sign) (t : Option Transaction)
    (h : sign_transaction sigPrim tx ps es = Outcome.ok t) :
    ∃ payload envelope,
      signSigners sigPrim (payload_from_transaction tx) ps =
        Outcome.ok payload ∧
      signSigners sigPrim (envelope_from_transaction tx payload) es =
        Outcome.ok envelope ∧
      t = some
        { script := tx.script, arguments := tx.arguments,
          reference_block_id := tx.reference_block_id,
          gas_limit := tx.gas_limit, proposal_key := tx.proposal_key,
          authorizers := tx.authorizers, payload_signatures := payload,
          envelope_signatures := envelope, payer := tx.payer } := by
  rw [sign_transaction] at h
  simp only [outcome_bind_def] at h
  cases hp : signSigners sigPrim (payload_from_transaction tx) ps with
  | err e => rw [hp] at h; simp at h
  | panic => rw [hp] at h; simp at h
  | ok payload =>
    rw [hp, outcome_bind_ok] at h
    cases he : signSigners sigPrim (envelope_from_transaction tx payload) es with
    | err e => rw [he] at h; simp at h
    | panic => rw [he] at h; simp at h
    | ok envelope =>
      rw [he] at h
      simp only [outcome_bind_ok, outcome_pure_def, Outcome.ok.injEq] at h
      exact ⟨payload, envelope, rfl, he, h.symm⟩

/-! Claim C7. -/

/-- C7 (amended): for every signing call, a signer (payload or envelope)
with a malformed private key or malformed address makes the whole call fail
— no transaction, and hence no partial signature list, is ever returned
(the call is atomic). A malformed private key of the first signer surfaces
as a `DecodeError`-style error result propagated through `Result`; a
malformed signer address, however, panics (the decode result is unwrapped)
instead of producing an error result. -/
theorem sign_transaction_failure_atomic (sigPrim : SigPrim)
    (tx : Transaction) :
    (∀ ps es s, (s ∈ ps ∨ s ∈ es) →
       (hexDecode s.private_key = none ∨ hexDecode s.address = none) →
       ∀ t, sign_transaction sigPrim tx ps es ≠ Outcome.ok t) ∧
    (∀ s rest es p d, payload_from_transaction tx = Outcome.ok p →
       hexDecode s.address = some d → d.length ≤ 8 →
       hexDecode s.private_key = none →
       sign_transaction sigPrim tx (s :: rest) es =
         Outcome.err FlowError.decodeError) ∧
    (∀ s rest es p, payload_from_transaction tx = Outcome.ok p →
       hexDecode s.address = none →
       sign_transaction sigPrim tx (s :: rest) es = Outcome.panic) := by
  refine ⟨?_, ?_, ?_⟩
  · intro ps es s hmem hbad t hok
    obtain ⟨payload, envelope, hp, he, ht⟩ :=
      sign_transaction_ok_destruct sigPrim tx ps es t hok
    cases hmem with
    | inl hmem =>
      obtain ⟨⟨i, hi⟩, hget⟩ := List.mem_iff_get.mp hmem
      obtain ⟨hlen, hspec⟩ :=
        signSigners_ok_spec sigPrim (payload_from_transaction tx) ps payload hp
      obtain ⟨encB, d, kb, _, haddr, _, hkey, _⟩ :=
        hspec i hi (by omega)
      rw [hget] at haddr hkey
      cases hbad with
      | inl hb => rw [hb] at hkey; cases hkey
      | inr hb => rw [hb] at haddr; cases haddr
    | inr hmem =>
      obtain ⟨⟨i, hi⟩, hget⟩ := List.mem_iff_get.mp hmem
      obtain ⟨hlen, hspec⟩ :=
        signSigners_ok_spec sigPrim
          (envelope_from_transaction tx payload) es envelope he
      obtain ⟨encB, d, kb, _, haddr, _, hkey, _⟩ :=
        hspec i hi (by omega)
      rw [hget] at haddr hkey
      cases hbad with
      | inl hb => rw [hb] at hkey; cases hkey
      | inr hb => rw [hb] at haddr; cases haddr
  · intro s rest es p d hpay haddr hd8 hkey
    have hserr : ∀ msg, sign sigPrim msg s.private_key =
        Outcome.err FlowError.decodeError :=
      fun msg => sign_err_decode sigPrim msg s.private_key hkey
    rw [sign_transaction]
    simp only [outcome_bind_def]
    rw [hpay, signSigners]
    simp only [outcome_bind_def, outcome_bind_ok, domainTag_pad, haddr,
      unwrapO, padding_eq_append d 8 hd8, hserr, outcome_bind_err,
      outcome_bind_panic]
  · intro s rest es p hpay haddr
    rw [sign_transaction]
    simp only [outcome_bind_def]
    rw [hpay, signSigners]
    simp only [outcome_bind_def, outcome_bind_ok, domainTag_pad, haddr,
      unwrapO, outcome_bind_panic]

/-- Witness for C7's amended theorem: a signer with malformed private key
`"gg"` yields the error result atomically; the same signer with a malformed
address makes the call panic. -/
theorem sign_transaction_failure_atomic_witness :
    (hexDecode "gg" = none ∧
     sign_transaction (fun _ _ => [1]) txEnv
       [{ address := "01", key_id := 0, private_key := "gg" }] [] ≠
       Outcome.ok none) ∧
    (payload_from_transaction txEnv = Outcome.ok pEnv ∧
     hexDecode "01" = some [1] ∧
     sign_transaction (fun _ _ => [1]) txEnv
       [{ address := "01", key_id := 0, private_key := "gg" }] [] =
       Outcome.err FlowError.decodeError) ∧
    (hexDecode "q0" = none ∧
     sign_transaction (fun _ _ => [1]) txEnv
       [{ address := "q0", key_id := 0, private_key := "gg" }] [] =
       Outcome.panic) :=
  ⟨⟨by decide,
    (sign_transaction_failure_atomic (fun _ _ => [1]) txEnv).1
      [{ address := "01", key_id := 0, private_key := "gg" }] []
      { address := "01", key_id := 0, private_key := "gg" }
      (Or.inl (by simp)) (Or.inl (by decide)) none⟩,
   ⟨rfl, by decide,
    (sign_transaction_failure_atomic (fun _ _ => [1]) txEnv).2.1
      { address := "01", key_id := 0, private_key := "gg" } [] [] pEnv [1]
      rfl (by decide) (by decide) (by decide)⟩,
   ⟨by decide,
    (sign_transaction_failure_atomic (fun _ _ => [1]) txEnv).2.2
      { address := "q0", key_id := 0, private_key := "gg" } [] [] pEnv
      rfl (by decide)⟩⟩

/-- Counterexample to C7 as frozen: a payload signer with the malformed
address `"zz"` makes `sign_transaction` panic; the call does not fail with
a `CryptoError` or `DecodeError` result. -/
theorem sign_transaction_bad_address_counterexample :
    sign_transaction (fun _ _ => [1]) txEnv
      [{ address := "zz", key_id := 0, private_key := "00" }] [] =
      Outcome.panic ∧
    sign_transaction (fun _ _ => [1]) txEnv
      [{ address := "zz", key_id := 0, private_key := "00" }] [] ≠
      Outcome.err FlowError.decodeError ∧
    sign_transaction (fun _ _ => [1]) txEnv
      [{ address := "zz", key_id := 0, private_key := "00" }] [] ≠
      Outcome.err FlowError.cryptoError := by decide

/-! Claim C8. -/

/-- C8 (confirmed): whenever `sign_transaction` returns a transaction, both
the payload digests and the envelope digests that were signed have the form
`domain_tag_padded_to_32 ++ canonical_encoding`: every payload signature is
the primitive applied to the signer's key and to the 32-byte zero-padded
constant ASCII tag `"FLOW-V0.0-transaction"` followed by the payload
encoding, every envelope signature likewise with the envelope encoding, the
same constant tag in both transitions, and the first 32 bytes of every
signed message are exactly this padded tag. -/
theorem sign_transaction_domain_tag (sigPrim : SigPrim) (tx : Transaction)
    (ps es : List Sign) (outTx : Transaction)
    (h : sign_transaction sigPrim tx ps es = Outcome.ok (some outTx)) :
    (domainTagBytes ++ List.replicate 11 0).length = 32 ∧
    (∀ i (hi : i < ps.length) (hi2 : i < outTx.payload_signatures.length),
       ∃ p kb,
         payload_from_transaction tx = Outcome.ok p ∧
         hexDecode ((ps.get ⟨i, hi⟩).private_key) = some kb ∧
         (outTx.payload_signatures.get ⟨i, hi2⟩).signature =
           sigPrim kb ((domainTagBytes ++ List.replicate 11 0) ++ p) ∧
         List.take 32 ((domainTagBytes ++ List.replicate 11 0) ++ p) =
           domainTagBytes ++ List.replicate 11 0) ∧
    (∀ j (hj : j < es.length) (hj2 : j < outTx.envelope_signatures.length),
       ∃ e kb,
         envelope_from_transaction tx outTx.payload_signatures =
           Outcome.ok e ∧
         hexDecode ((es.get ⟨j, hj⟩).private_key) = some kb ∧
         (outTx.envelope_signatures.get ⟨j, hj2⟩).signature =
           sigPrim kb ((domainTagBytes ++ List.replicate 11 0) ++ e) ∧
         List.take 32 ((domainTagBytes ++ List.replicate 11 0) ++ e) =
           domainTagBytes ++ List.replicate 11 0) := by
  obtain ⟨payload, envelope, hp, he, ht⟩ :=
    sign_transaction_ok_destruct sigPrim tx ps es (some outTx) h
  have htx : outTx =
      { script := tx.script, arguments := tx.arguments,
        reference_block_id := tx.reference_block_id,
        gas_limit := tx.gas_limit, proposal_key := tx.proposal_key,
        authorizers := tx.authorizers, payload_signatures := payload,
        envelope_signatures := envelope, payer := tx.payer } :=
    Option.some.inj ht
  have htake : ∀ rest : List Nat,
      List.take 32 ((domainTagBytes ++ List.replicate 11 0) ++ rest) =
        domainTagBytes ++ List.replicate 11 0 := by
    intro rest
    have := List.take_left (domainTagBytes ++ List.replicate 11 0) rest
    rwa [domainTag_full_length] at this
  subst htx
  refine ⟨domainTag_full_length, ?_, ?_⟩
  · intro i hi hi2
    obtain ⟨encB, d, kb, henc, _, _, hkey, _, _, _, hsig⟩ :=
      (signSigners_ok_spec sigPrim (payload_from_transaction tx) ps
        payload hp).2 i hi hi2
    exact ⟨encB, kb, henc, hkey, hsig, htake encB⟩
  · intro j hj hj2
    obtain ⟨encB, d, kb, henc, _, _, hkey, _, _, _, hsig⟩ :=
      (signSigners_ok_spec sigPrim
        (envelope_from_transaction tx payload) es envelope he).2 j hj hj2
    exact ⟨encB, kb, henc, hkey, hsig, htake encB⟩

/-- Hex string of the valid scalar 1, used as a well-formed private key. -/
def goodKeyHex : String :=
  "0000000000000000000000000000000000000000000000000000000000000001"

/-- Well-formed signer credential fixture. -/
def goodSigner : Sign :=
  { address := "0101010101010101", key_id := 4, private_key := goodKeyHex }

/-- Concrete deterministic signature primitive used by witnesses. -/
def constSig : SigPrim := fun _ _ => [1]

/-- Output transaction of the fixture signing run. -/
def outEnv : Transaction :=
  match sign_transaction constSig txEnv [goodSigner] [goodSigner] with
  | Outcome.ok (some t) => t
  | _ => txEnv

/-- Witness for C8's theorem on a successful signing run with one payload
and one envelope signer. -/
theorem sign_transaction_domain_tag_witness :
    sign_transaction constSig txEnv [goodSigner] [goodSigner] =
      Outcome.ok (some outEnv) ∧
    ((domainTagBytes ++ List.replicate 11 0).length = 32 ∧
     (∀ i (hi : i < ([goodSigner] : List Sign).length)
        (hi2 : i < outEnv.payload_signatures.length),
        ∃ p kb,
          payload_from_transaction txEnv = Outcome.ok p ∧
          hexDecode ((([goodSigner] : List Sign).get ⟨i, hi⟩).private_key) =
            some kb ∧
          (outEnv.payload_signatures.get ⟨i, hi2⟩).signature =
            constSig kb ((domainTagBytes ++ List.replicate 11 0) ++ p) ∧
          List.take 32 ((domainTagBytes ++ List.replicate 11 0) ++ p) =
            domainTagBytes ++ List.replicate 11 0) ∧
     (∀ j (hj : j < ([goodSigner] : List Sign).length)
        (hj2 : j < outEnv.envelope_signatures.length),
        ∃ e kb,
          envelope_from_transaction txEnv outEnv.payload_signatures =
            Outcome.ok e ∧
          hexDecode ((([goodSigner] : List Sign).get ⟨j, hj⟩).private_key) =
            some kb ∧
          (outEnv.envelope_signatures.get ⟨j, hj2⟩).signature =
            constSig kb ((domainTagBytes ++ List.replicate 11 0) ++ e) ∧
          List.take 32 ((domainTagBytes ++ List.replicate 11 0) ++ e) =
            domainTagBytes ++ List.replicate 11 0)) :=
  ⟨rfl,
   sign_transaction_domain_tag constSig txEnv [goodSigner] [goodSigner]
     outEnv rfl⟩

/-! Claim C10. -/

theorem payload_from_transaction_congr (tx1 tx2 : Transaction)
    (hs : tx1.script = tx2.script) (ha : tx1.arguments = tx2.arguments)
    (hr : tx1.reference_block_id = tx2.reference_block_id)
    (hg : tx1.gas_limit = tx2.gas_limit)
    (hk : tx1.proposal_key = tx2.proposal_key)
    (hau : tx1.authorizers = tx2.authorizers)
    (hp : tx1.payer = tx2.payer) :
    payload_from_transaction tx1 = payload_from_transaction tx2 := by
  rw [payload_from_transaction, payload_from_transaction,
      hs, ha, hr, hg, hk, hau, hp]

theorem envelope_from_transaction_congr (tx1 tx2 : Transaction)
    (hs : tx1.script = tx2.script) (ha : tx1.arguments = tx2.arguments)
    (hr : tx1.reference_block_id = tx2.reference_block_id)
    (hg : tx1.gas_limit = tx2.gas_limit)
    (hk : tx1.proposal_key = tx2.proposal_key)
    (hau : tx1.authorizers = tx2.authorizers)
    (hp : tx1.payer = tx2.payer) :
    ∀ psigs, envelope_from_transaction tx1 psigs =
      envelope_from_transaction tx2 psigs := by
  intro psigs
  rw [envelope_from_transaction, envelope_from_transaction,
      hs, ha, hr, hg, hk, hau, hp]

/-- C10 (confirmed): `sign_transaction` replaces rather than appends
signatures. Any two input transactions that differ only in their
`payload_signatures` and/or `envelope_signatures` fields produce identical
results when signed with the same signer lists — the pre-existing
signatures never enter either digest — and on success the output signature
lists carry exactly one record per supplied signer, in input order (shown
by the positional key indices). -/
theorem sign_transaction_replaces_signatures (sigPrim : SigPrim)
    (tx1 tx2 : Transaction) (ps es : List Sign)
    (hs : tx1.script = tx2.script) (ha : tx1.arguments = tx2.arguments)
    (hr : tx1.reference_block_id = tx2.reference_block_id)
    (hg : tx1.gas_limit = tx2.gas_limit)
    (hk : tx1.proposal_key = tx2.proposal_key)
    (hau : tx1.authorizers = tx2.authorizers)
    (hp : tx1.payer = tx2.payer) :
    sign_transaction sigPrim tx1 ps es = sign_transaction sigPrim tx2 ps es ∧
    (∀ outTx, sign_transaction sigPrim tx1 ps es = Outcome.ok (some outTx) →
       outTx.payload_signatures.length = ps.length ∧
       outTx.envelope_signatures.length = es.length ∧
       (∀ i (hi : i < ps.length)
          (hi2 : i < outTx.payload_signatures.length),
          (outTx.payload_signatures.get ⟨i, hi2⟩).key_id =
            (ps.get ⟨i, hi⟩).key_id) ∧
       (∀ j (hj : j < es.length)
          (hj2 : j < outTx.envelope_signatures.length),
          (outTx.envelope_signatures.get ⟨j, hj2⟩).key_id =
            (es.get ⟨j, hj⟩).key_id)) := by
  constructor
  · rw [sign_transaction, sign_transaction,
        payload_from_transaction_congr tx1 tx2 hs ha hr hg hk hau hp]
    simp only [envelope_from_transaction_congr tx1 tx2 hs ha hr hg hk hau hp]
    rw [hs, ha, hr, hg, hk, hau, hp]
  · intro outTx hok
    obtain ⟨payload, envelope, hpl, hel, ht⟩ :=
      sign_transaction_ok_destruct sigPrim tx1 ps es (some outTx) hok
    have htx : outTx =
        { script := tx1.script, arguments := tx1.arguments,
          reference_block_id := tx1.reference_block_id,
          gas_limit := tx1.gas_limit, proposal_key := tx1.proposal_key,
          authorizers := tx1.authorizers, payload_signatures := payload,
          envelope_signatures := envelope, payer := tx1.payer } :=
      Option.some.inj ht
    subst htx
    obtain ⟨hlenp, hspecp⟩ :=
      signSigners_ok_spec sigPrim (payload_from_transaction tx1) ps
        payload hpl
    obtain ⟨hlene, hspece⟩ :=
      signSigners_ok_spec sigPrim (envelope_from_transaction tx1 payload) es
        envelope hel
    refine ⟨hlenp, hlene, ?_, ?_⟩
    · intro i hi hi2
      obtain ⟨_, _, _, _, _, _, _, _, _, hkid, _⟩ := hspecp i hi hi2
      exact hkid
    · intro j hj hj2
      obtain ⟨_, _, _, _, _, _, _, _, _, hkid, _⟩ := hspece j hj hj2
      exact hkid

/-- Fixture identical to `txEnv` except for nonempty pre-existing signature
lists. -/
def txEnvSigged : Transaction :=
  { txEnv with
    payload_signatures := [{ address := [4], key_id := 9, signature := [7] }],
    envelope_signatures := [{ address := [5], key_id := 8, signature := [6] }] }

/-- Witness for C10's theorem: the fixture with pre-existing signatures and
the clean fixture sign identically. -/
theorem sign_transaction_replaces_signatures_witness :
    txEnvSigged.script = txEnv.script ∧
    txEnvSigged.arguments = txEnv.arguments ∧
    txEnvSigged.reference_block_id = txEnv.reference_block_id ∧
    txEnvSigged.gas_limit = txEnv.gas_limit ∧
    txEnvSigged.proposal_key = txEnv.proposal_key ∧
    txEnvSigged.authorizers = txEnv.authorizers ∧
    txEnvSigged.payer = txEnv.payer ∧
    (sign_transaction constSig txEnvSigged [goodSigner] [goodSigner] =
       sign_transaction constSig txEnv [goodSigner] [goodSigner] ∧
     (∀ outTx,
        sign_transaction constSig txEnvSigged [goodSigner] [goodSigner] =
          Outcome.ok (some outTx) →
        outTx.payload_signatures.length =
          ([goodSigner] : List Sign).length ∧
        outTx.envelope_signatures.length =
          ([goodSigner] : List Sign).length ∧
        (∀ i (hi : i < ([goodSigner] : List Sign).length)
           (hi2 : i < outTx.payload_signatures.length),
           (outTx.payload_signatures.get ⟨i, hi2⟩).key_id =
             (([goodSigner] : List Sign).get ⟨i, hi⟩).key_id) ∧
        (∀ j (hj : j < ([goodSigner] : List Sign).length)
           (hj2 : j < outTx.envelope_signatures.length),
           (outTx.envelope_signatures.get ⟨j, hj2⟩).key_id =
             (([goodSigner] : List Sign).get ⟨j, hj⟩).key_id))) :=
  ⟨rfl, rfl, rfl, rfl, rfl, rfl, rfl,
   sign_transaction_replaces_signatures constSig txEnvSigged txEnv
     [goodSigner] [goodSigner] rfl rfl rfl rfl rfl rfl rfl⟩

end FlowSdk
